import Mathlib

/-!
# gsElasticity: Navier-Stokes time integrator and mass assembler

A shallow embedding of `gsNsTimeIntegrator.h` and `gsMassAssembler.hpp`.

* Member functions that can throw (through `GISMO_ENSURE`) return an `Outcome`: the
  exception, if any, together with the object as the call leaves it, so that a
  mutation made before the throw stays visible.
* The coefficient type `T` of the class templates is a type parameter.
* Sizes (`rows()`, `size()`, `numDofs()`) are natural numbers.
-/

namespace gismo

/-! ## Library types used by the sources -/

/-- Dense matrix `gsMatrix<T>`: its dimensions and its coefficients in storage order. -/
structure gsMatrix (T : Type) where
  rows : Nat
  cols : Nat
  coeffs : List T
deriving DecidableEq, Repr

/-- Sparse matrix `gsSparseMatrix<T>`, seen through its dimensions and the values it holds. -/
structure gsSparseMatrix (T : Type) where
  rows : Nat
  cols : Nat
  coeffs : List T
deriving DecidableEq, Repr

/-- The object `m_system` of an assembler: matrix, right-hand side, and the number of free
degrees of freedom its mappers report (`Base::numDofs()`). -/
structure gsSparseSystem (T : Type) where
  matrix : gsSparseMatrix T
  rhs : gsMatrix T
  numDofs : Nat
deriving DecidableEq, Repr

/-- The keys of `m_options` the sources read or write. -/
structure gsOptionList where
  DirichletStrategy : Int
  bdO : ℚ
  Density : ℚ
deriving DecidableEq, Repr

/-- What a failed `GISMO_ENSURE` throws, one constructor per message of the sources, carrying
the numbers the message prints. -/
inductive gsError where
  /-- Message "Wrong size of the solution vector: rows. Must be: numDofs". -/
  | wrongSolutionVectorSize (rows numDofs : Nat)
  /-- Message "Wrong size of the container with fixed DoFs: size. Must be at least: must". -/
  | wrongFixedDofsContainerSize (size must : Nat)
  /-- Message "Wrong number of fixed DoFs for d component: rows. Must be: must". -/
  | wrongNumberOfFixedDofs (d rows must : Nat)
  /-- Message "The RHS dimension and the domain dimension don't match!". -/
  | rhsDimensionMismatch
  /-- Message "Only two- and three-dimenstion domains are supported!". -/
  | unsupportedDimension
deriving DecidableEq, Repr

deriving instance DecidableEq for Except

/-- A call that may throw: `result` is the normal return or the exception, `state` the object
as the call leaves it. -/
structure Outcome (ε σ : Type) where
  result : Except ε Unit
  state : σ

/-! ## gsMassAssembler (gsMassAssembler.hpp) -/

/-- The members of `gsMassAssembler<T>` the sources use. `parDim` stands for
`m_pde_ptr->domain().parDim()` and `m_bases` for the number of entries of the vector
`m_bases`. -/
structure gsMassAssembler (T : Type) where
  m_dim : Int
  parDim : Int
  m_bases : Nat
  m_options : gsOptionList
  m_system : gsSparseSystem T
  m_ddof : List (gsMatrix T)
deriving DecidableEq, Repr

/-- The member `Base::numDofs()` of the mass assembler. -/
def gsMassAssembler.numDofs {T : Type} (self : gsMassAssembler T) : Nat :=
  self.m_system.numDofs

/-- The loop of `setFixedDofs`: `n` iterations remain and the counter is `d`. Each iteration
checks the row counts of component `d` and then assigns `m_ddof[d] = ddofs[d]`. A read past
the end of either vector ends the loop with the container as it is; `setFixedDofs` rules
this out by its first check. The counter of the source is a `short_t` compared with
`index_t(m_ddof.size())`; `m_ddof` has one component per unknown, `m_dim` of them, so the
counter stays in range and is a natural number here. -/
def setFixedDofsLoop {T : Type} (ddofs : List (gsMatrix T)) :
    Nat → Nat → List (gsMatrix T) → Outcome gsError (List (gsMatrix T))
  | 0, _, m_ddof => ⟨.ok (), m_ddof⟩
  | n + 1, d, m_ddof =>
    match m_ddof[d]?, ddofs[d]? with
    | some m, some dd =>
      if m.rows = dd.rows then
        setFixedDofsLoop ddofs n (d + 1) (m_ddof.set d dd)
      else
        ⟨.error (.wrongNumberOfFixedDofs d dd.rows m.rows), m_ddof⟩
    | _, _ => ⟨.ok (), m_ddof⟩

/-- The member `gsMassAssembler<T>::setFixedDofs`: a `GISMO_ENSURE` that the input has at
least `m_ddof.size()` components, then the loop over the components of `m_ddof`. -/
def gsMassAssembler.setFixedDofs {T : Type} (self : gsMassAssembler T)
    (ddofs : List (gsMatrix T)) : Outcome gsError (gsMassAssembler T) :=
  if ddofs.length ≥ self.m_ddof.length then
    let out := setFixedDofsLoop ddofs self.m_ddof.length 0 self.m_ddof
    ⟨out.result, { self with m_ddof := out.state }⟩
  else
    ⟨.error (.wrongFixedDofsContainerSize ddofs.length self.m_ddof.length), self⟩

/-- The visitor `gsVisitorMass<T>` (its header is not among the sources) as `Base::push`
uses it: for the flag it was constructed with and the eliminated degrees of freedom
`m_ddof`, the values its element loop adds to the global matrix, as (row, column, value),
and to the global right-hand side, as (row, value). -/
structure gsVisitorMass (T : Type) where
  matrixEntries : Bool → List (gsMatrix T) → List (Nat × Nat × T)
  rhsEntries : Bool → List (gsMatrix T) → List (Nat × T)

/-- The call `matrix().setZero()`: the dimensions stay, every value becomes zero. -/
def gsSparseMatrix.setZero {T : Type} [Zero T] (A : gsSparseMatrix T) : gsSparseMatrix T :=
  { A with coeffs := List.replicate (A.rows * A.cols) 0 }

/-- The call `rhs().setZero(rows, cols)`: resize and fill with zeros. -/
def gsMatrix.setZero {T : Type} [Zero T] (rows cols : Nat) : gsMatrix T :=
  ⟨rows, cols, List.replicate (rows * cols) 0⟩

/-- Add `v` to the entry (i, j) of the global matrix (column-major position `j * rows + i`). -/
def gsSparseMatrix.addTo {T : Type} [Zero T] [Add T] (A : gsSparseMatrix T)
    (e : Nat × Nat × T) : gsSparseMatrix T :=
  let i := e.1
  let j := e.2.1
  let v := e.2.2
  let k := j * A.rows + i
  if i < A.rows ∧ j < A.cols then
    { A with coeffs := A.coeffs.set k (A.coeffs.getD k 0 + v) }
  else A

/-- Add `v` to the entry i of the global right-hand side. -/
def gsMatrix.addTo {T : Type} [Zero T] [Add T] (b : gsMatrix T) (e : Nat × T) : gsMatrix T :=
  if e.1 < b.rows then
    { b with coeffs := b.coeffs.set e.1 (b.coeffs.getD e.1 0 + e.2) }
  else b

/-- The call `Base::push<gsVisitorMass<T>>(visitor)`: the visitor adds its element contributions to
`m_system`. -/
def gsMassAssembler.push {T : Type} [Zero T] [Add T] (visitor : gsVisitorMass T)
    (assembleMatrix : Bool) (m_ddof : List (gsMatrix T)) (sys : gsSparseSystem T) :
    gsSparseSystem T :=
  { sys with
    matrix := (visitor.matrixEntries assembleMatrix m_ddof).foldl gsSparseMatrix.addTo sys.matrix
    rhs := (visitor.rhsEntries assembleMatrix m_ddof).foldl gsMatrix.addTo sys.rhs }

/-- The member `gsMassAssembler<T>::assemble(bool assembleMatrix)`: zero the matrix, zero the
right-hand side at size numDofs x 1, push the visitor. `reserve` and `makeCompressed`
change the storage only, not the values. -/
def gsMassAssembler.assemble {T : Type} [Zero T] [Add T] (visitor : gsVisitorMass T)
    (self : gsMassAssembler T) (assembleMatrix : Bool) : gsMassAssembler T :=
  let zeroed : gsSparseSystem T :=
    { self.m_system with
      matrix := self.m_system.matrix.setZero
      rhs := gsMatrix.setZero self.numDofs 1 }
  { self with m_system := gsMassAssembler.push visitor assembleMatrix self.m_ddof zeroed }

/-- The loop `for (short_t d = 0; d < m_dim; ++d) m_bases.push_back(basis)` of the
constructor, with `fuel` iterations allowed, the counter at `d` and `count` bases pushed so
far; the result is the number of bases when the loop ends. -/
def pushBasesLoop (m_dim : Int) : Nat → Int → Nat → Nat
  | 0, _, count => count
  | fuel + 1, d, count =>
    if d < m_dim then pushBasesLoop m_dim fuel (d + 1) (count + 1) else count

/-- The constructor of `gsMassAssembler<T>` up to its call of `Base::initialize`:
`m_dim = body_force.targetDim()`, then the loop that pushes the basis onto the empty
`m_bases`. The result is the pair of `m_dim` and the number of bases. The loop needs
`m_dim` iterations and no more, which is the fuel it gets. -/
def gsMassAssembler.constructBases (targetDim : Int) : Int × Nat :=
  (targetDim, pushBasesLoop targetDim targetDim.toNat 0 0)

/-- The members of the base class `gsAssembler<T>` of the G+Smo library that `refresh` calls
and whose bodies are not among the sources. `sparseSystem` is the system that
`gsSparseSystem<T>(m_dofMappers, dims)` builds from the mappers that `getMapper` fills for
the bases, the option `DirichletStrategy` and the boundary conditions;
`computeDirichletDofs d` gives the fixed DoFs `m_ddof` that `Base::computeDirichletDofs(d)`
leaves. -/
structure gsAssembler (T : Type) where
  sparseSystem : gsMassAssembler T → gsSparseSystem T
  computeDirichletDofs : Nat → gsMassAssembler T → List (gsMatrix T)

/-- The two `GISMO_ENSURE` at the head of `refresh`, in their order: the dimension of the
right-hand side against the parametric dimension of the domain, then the dimension against
2 and 3. -/
def gsMassAssembler.refreshChecks {T : Type} (self : gsMassAssembler T) : Except gsError Unit :=
  if self.m_dim = self.parDim then
    if self.m_dim = 2 ∨ self.m_dim = 3 then .ok ()
    else .error .unsupportedDimension
  else .error .rhsDimensionMismatch

/-- The member `gsMassAssembler<T>::refresh`. After the two checks: the system is rebuilt
from the mappers of the bases, the option `bdO` is set to
`m_bases.size() * (1 + bdO) - 1`, and the Dirichlet DoFs are computed for each basis in
turn. `reserve` changes the storage only; it reads `m_bases[0]`, which exists for the
bases the constructor builds when the checks pass. -/
def gsMassAssembler.refresh {T : Type} (Base : gsAssembler T) (self : gsMassAssembler T) :
    Outcome gsError (gsMassAssembler T) :=
  match self.refreshChecks with
  | .error e => ⟨.error e, self⟩
  | .ok () =>
    let withSystem : gsMassAssembler T := { self with m_system := Base.sparseSystem self }
    let withOptions : gsMassAssembler T :=
      { withSystem with
        m_options :=
          { withSystem.m_options with
            bdO := (self.m_bases : ℚ) * (1 + withSystem.m_options.bdO) - 1 } }
    ⟨.ok (),
      (List.range self.m_bases).foldl
        (fun a d => { a with m_ddof := Base.computeDirichletDofs d a }) withOptions⟩

/-- The assembler after `k` calls of `refresh` in a row. -/
def gsMassAssembler.refreshTimes {T : Type} (Base : gsAssembler T) :
    Nat → gsMassAssembler T → gsMassAssembler T
  | 0, self => self
  | k + 1, self => gsMassAssembler.refreshTimes Base k (self.refresh Base).state

/-! ## gsNsTimeIntegrator (gsNsTimeIntegrator.h) -/

/-- The stiffness assembler `gsNsAssembler<T>` as the header uses it: `numDofs()`. -/
structure gsNsAssembler where
  numDofs : Nat
deriving DecidableEq, Repr

/-- The data members of `gsNsTimeIntegrator<T>`, in the order of the header. -/
structure gsNsTimeIntegrator (T : Type) where
  stiffAssembler : gsNsAssembler
  massAssembler : gsMassAssembler T
  m_matrix : gsSparseMatrix T
  m_rhs : gsMatrix T
  constRHS : gsMatrix T
  tStep : T
  oldTimeStep : T
  solVector : gsMatrix T
  oldSolVector : gsMatrix T
  m_system : gsSparseSystem T
  m_options : gsOptionList
  m_ddof : List (gsMatrix T)
  velVecSaved : gsMatrix T
  oldVecSaved : gsMatrix T
  massRhsSaved : gsMatrix T
  stiffRhsSaved : gsMatrix T
  stiffMatrixSaved : gsSparseMatrix T
  ddofsSaved : List (gsMatrix T)
deriving DecidableEq, Repr

namespace gsNsTimeIntegrator

variable {T : Type}

/-- The member `virtual int numDofs() const`. -/
def numDofs (self : gsNsTimeIntegrator T) : Nat :=
  self.stiffAssembler.numDofs

/-- The member `const gsMatrix<T> & solutionVector() const`. -/
def solutionVector (self : gsNsTimeIntegrator T) : gsMatrix T :=
  self.solVector

/-- The member `const gsMatrix<T> & SolutionVectorOld() const`. -/
def SolutionVectorOld (self : gsNsTimeIntegrator T) : gsMatrix T :=
  self.oldSolVector

/-- The member `void setSolutionVector(const gsMatrix<T> & solutionVector)`: one
`GISMO_ENSURE` on the row count against `stiffAssembler.numDofs()`, then the assignment to
`solVector`. -/
def setSolutionVector (self : gsNsTimeIntegrator T) (solutionVector : gsMatrix T) :
    Outcome gsError (gsNsTimeIntegrator T) :=
  if solutionVector.rows = self.stiffAssembler.numDofs then
    ⟨.ok (), { self with solVector := solutionVector }⟩
  else
    ⟨.error (.wrongSolutionVectorSize solutionVector.rows self.stiffAssembler.numDofs), self⟩

end gsNsTimeIntegrator

/-! ## The stepping and checkpoint operations

The header declares `initialize`, `makeTimeStep`, `makeTimeStepFSI`, `assemble`,
`implicitLinear`, `implicitNonlinear`, `saveState` and `recoverState`; their bodies are in
`gsNsTimeIntegrator.hpp`, which is not among the sources. The definitions of this section
follow the specification (sections 3, 4.1, 4.2, 6 and 7) instead.
-/

/-- Modelled from the spec: the reasons of a `SolverFailure` (section 6), reported by the
linear-solve service, which is outside the sources. -/
inductive SolverFailureReason where
  | singularMatrix
  | nonConvergence
deriving DecidableEq, Repr

/-- Modelled from the spec: the error kinds of section 7, raised by the member functions
whose bodies are missing. -/
inductive CoreError where
  | ConfigurationError
  | DimensionError
  | NonlinearDivergence
  | SolverFailure (reason : SolverFailureReason)
  | NoCheckpointError
deriving DecidableEq, Repr

/-- Modelled from the spec: the lifecycle states of section 4.1, kept by the missing bodies. -/
inductive Phase where
  | Uninitialized
  | Initialized
  | Stepping
  | Converged
  | Failed
deriving DecidableEq, Repr

/-- Modelled from the spec: the scheme selector of `SchemeConfig` (section 3), read by the
missing body of `makeTimeStep`. -/
inductive Scheme where
  | implicitLinear
  | implicitNonlinear
  | imexALE
deriving DecidableEq, Repr

/-- Modelled from the spec: `SchemeConfig` (section 3), the parameters the missing bodies
read from the options: blending factor, nonlinear tolerance, maximum iteration count and
scheme selector. -/
structure SchemeConfig (T : Type) where
  theta : T
  tolerance : T
  maxIterations : Nat
  scheme : Scheme

/-- Modelled from the spec: the operator contract of section 6 for the stiffness and the
mass operator, whose `assemble` bodies are outside the sources:
`assemble(state, fixedDofs, computeMatrix) -> (matrix, rhs)`. -/
structure Operator (T : Type) where
  numDofs : Nat
  assemble : gsMatrix T → List (gsMatrix T) → Bool → gsSparseMatrix T × gsMatrix T

/-- Modelled from the spec: what the missing stepping bodies call. The two operators and the
linear-solve service `solve(matrix, rhs) -> solution | SolverFailure` of section 6, the
scheme configuration, and the two pieces of arithmetic that section 4.2 names without
fixing them for every scheme: `combine dt theta massOut stiffOut previous guess` blends
the two operators' outputs, assembled at `guess`, into the system (matrix, rhs), and
`norm` is the residual norm. -/
structure Collaborators (T : Type) where
  stiff : Operator T
  mass : Operator T
  solve : gsSparseMatrix T → gsMatrix T → Except SolverFailureReason (gsMatrix T)
  config : SchemeConfig T
  combine : T → T → gsSparseMatrix T × gsMatrix T → gsSparseMatrix T × gsMatrix T →
    gsMatrix T → gsMatrix T → gsSparseMatrix T × gsMatrix T
  norm : gsMatrix T → T

/-- Modelled from the spec: the `Checkpoint` of section 3 that the missing `saveState` takes,
a copy of the solution state (current and previous), the system operator (matrix and rhs)
and the fixed-DoF set. -/
structure Checkpoint (T : Type) where
  current : gsMatrix T
  previous : gsMatrix T
  matrix : gsSparseMatrix T
  rhs : gsMatrix T
  fixedDofs : List (gsMatrix T)
deriving DecidableEq, Repr

/-- Modelled from the spec: the `TimeIntegrator` of section 2 as the missing bodies see it,
the object of the header together with the single checkpoint slot (empty or holding one
checkpoint) and the lifecycle state. -/
structure TimeIntegrator (T : Type) where
  core : gsNsTimeIntegrator T
  checkpoint : Option (Checkpoint T)
  phase : Phase
deriving DecidableEq, Repr

namespace TimeIntegrator

variable {T : Type}

/-- The accessor `solutionVector()` of the header, on the integrator of the specification. -/
def solutionVector (self : TimeIntegrator T) : gsMatrix T :=
  self.core.solutionVector

/-- The accessor `SolutionVectorOld()` of the header, on the integrator of the
specification. -/
def SolutionVectorOld (self : TimeIntegrator T) : gsMatrix T :=
  self.core.SolutionVectorOld

/-- Modelled from the spec: the copy that the missing `saveState` stores, the core-owned
mutable state listed for `Checkpoint` in section 3. -/
def snapshot (self : TimeIntegrator T) : Checkpoint T :=
  { current := self.core.solVector
    previous := self.core.oldSolVector
    matrix := self.core.m_matrix
    rhs := self.core.m_rhs
    fixedDofs := self.core.m_ddof }

/-- Modelled from the spec: the missing body of `saveState()` (section 4.1), which deep-copies
the core-owned mutable state into the single checkpoint slot, overwriting what the slot
held. -/
def saveState (self : TimeIntegrator T) : TimeIntegrator T :=
  { self with checkpoint := some self.snapshot }

/-- Modelled from the spec: the missing body of `recoverState()` (sections 3 and 4.1). With no
checkpoint present it fails with `NoCheckpointError`; otherwise it restores the checkpoint,
which is consumed and discarded. -/
def recoverState (self : TimeIntegrator T) : Outcome CoreError (TimeIntegrator T) :=
  match self.checkpoint with
  | none => ⟨.error .NoCheckpointError, self⟩
  | some c =>
    ⟨.ok (),
      { self with
        core :=
          { self.core with
            solVector := c.current
            oldSolVector := c.previous
            m_matrix := c.matrix
            m_rhs := c.rhs
            m_ddof := c.fixedDofs }
        checkpoint := none }⟩

/-- Modelled from the spec: the missing body of `assemble(state, fixedDofs, assembleMatrix)`
(section 4.1). It builds the combined system for the supplied state from the two
operators, leaves the solution vectors alone, and with `assembleMatrix = false` skips the
matrix rebuild: the last matrix stays and only the rhs is rebuilt. -/
def assemble (env : Collaborators T) (self : TimeIntegrator T) (state : gsMatrix T)
    (fixedDofs : List (gsMatrix T)) (assembleMatrix : Bool) : TimeIntegrator T :=
  let sys := env.combine self.core.tStep env.config.theta
    (env.mass.assemble state fixedDofs assembleMatrix)
    (env.stiff.assemble state fixedDofs assembleMatrix) self.core.solVector state
  if assembleMatrix then
    { self with core := { self.core with m_matrix := sys.1, m_rhs := sys.2 } }
  else
    { self with core := { self.core with m_rhs := sys.2 } }

/-- The update `u + du` of a Newton correction, coefficient by coefficient. -/
def correct [Add T] (u du : gsMatrix T) : gsMatrix T :=
  { u with coeffs := List.zipWith (fun a b => a + b) u.coeffs du.coeffs }

/-- Modelled from the spec: the combined system of one step (section 2, control flow), which
the missing stepping bodies form: both operators are assembled at the guess `u` with the
current fixed-DoF values and their outputs are combined, `previous` being the solution at
the previous time. -/
def stepSystem (env : Collaborators T) (self : TimeIntegrator T) (dt : T)
    (u : gsMatrix T) : gsSparseMatrix T × gsMatrix T :=
  env.combine dt env.config.theta (env.mass.assemble u self.core.m_ddof true)
    (env.stiff.assemble u self.core.m_ddof true) self.core.solVector u

/-- Modelled from the spec: the missing body of `implicitLinear` (section 4.2, linear case):
the theta-weighted system is formed once and a single linear solve gives the new solution;
a failure of the solve is propagated as `SolverFailure`. The result is the new solution
with the system it was solved from. -/
def implicitLinear (env : Collaborators T) (self : TimeIntegrator T) (dt : T) :
    Except CoreError (gsMatrix T × (gsSparseMatrix T × gsMatrix T)) :=
  let sys := stepSystem env self dt self.core.solVector
  match env.solve sys.1 sys.2 with
  | .error reason => .error (.SolverFailure reason)
  | .ok u => .ok (u, sys)

/-- Modelled from the spec: the Newton iteration of the missing `implicitNonlinear`
(section 4.2, nonlinear case), with `k` iterations left, the current guess `u`, the
residual norm `rLast` of the guess, the norm `r0` of the first residual and the number
`grown` of consecutive iterations in which the norm has increased. Each iteration
reassembles the system at the guess, solves for the correction, updates the guess and
recomputes the relative residual norm; it converges when the ratio is below the tolerance
and diverges when the norm has increased twice in a row or no iteration is left. -/
def newton [LinearOrderedField T] (env : Collaborators T) (self : TimeIntegrator T) (dt r0 : T) :
    Nat → gsMatrix T → T → Nat →
      Except CoreError (gsMatrix T × (gsSparseMatrix T × gsMatrix T))
  | 0, _, _, _ => .error .NonlinearDivergence
  | k + 1, u, rLast, grown =>
    let sys := stepSystem env self dt u
    match env.solve sys.1 sys.2 with
    | .error reason => .error (.SolverFailure reason)
    | .ok du =>
      let u1 := correct u du
      let r := env.norm (stepSystem env self dt u1).2
      if r / r0 < env.config.tolerance then .ok (u1, sys)
      else
        let grown1 := if rLast < r then grown + 1 else 0
        if 2 ≤ grown1 then .error .NonlinearDivergence
        else newton env self dt r0 k u1 r grown1

/-- Modelled from the spec: the missing body of `implicitNonlinear` (section 4.2): the Newton
iteration started from the current solution, bounded by the maximum iteration count. -/
def implicitNonlinear [LinearOrderedField T] (env : Collaborators T) (self : TimeIntegrator T)
    (dt : T) : Except CoreError (gsMatrix T × (gsSparseMatrix T × gsMatrix T)) :=
  let r0 := env.norm (stepSystem env self dt self.core.solVector).2
  newton env self dt r0 env.config.maxIterations self.core.solVector r0 0

/-- Modelled from the spec: the missing body of `makeTimeStep(dt)` (section 4.1). The
configured scheme is run on local copies. On success the current solution becomes the
previous one, the computed solution becomes the current one and the integrator is
`Converged`; on nonlinear divergence or linear-solve failure the integrator becomes
`Failed` and nothing else changes. The single-pass IMEX step is one assemble and one
solve (section 4.3). -/
def makeTimeStep [LinearOrderedField T] (env : Collaborators T) (self : TimeIntegrator T)
    (dt : T) : Outcome CoreError (TimeIntegrator T) :=
  let step :=
    match env.config.scheme with
    | .implicitLinear => implicitLinear env self dt
    | .implicitNonlinear => implicitNonlinear env self dt
    | .imexALE => implicitLinear env self dt
  match step with
  | .error e => ⟨.error e, { self with phase := .Failed }⟩
  | .ok (u, sys) =>
    ⟨.ok (),
      { self with
        core :=
          { self.core with
            m_matrix := sys.1
            m_rhs := sys.2
            tStep := dt
            oldTimeStep := self.core.tStep
            solVector := u
            oldSolVector := self.core.solVector }
        phase := .Converged }⟩

/-- The member `setSolutionVector` of the header on the integrator of the specification: the
call acts on the object of the header and touches neither the checkpoint slot nor the
lifecycle state. -/
def setSolutionVector (self : TimeIntegrator T) (v : gsMatrix T) :
    Outcome gsError (TimeIntegrator T) :=
  ⟨(self.core.setSolutionVector v).result,
    { self with core := (self.core.setSolutionVector v).state }⟩

/-- The integrator that has moved on to the state `next` while its checkpoint slot still
holds what it holds in `self`. -/
def movedTo (self next : TimeIntegrator T) : TimeIntegrator T :=
  { next with checkpoint := self.checkpoint }

end TimeIntegrator

/-- A call of one of the public member functions of the integrator. -/
inductive Call (T : Type) where
  | setSolutionVector (v : gsMatrix T)
  | makeTimeStep (dt : T)
  | assemble (state : gsMatrix T) (fixedDofs : List (gsMatrix T)) (assembleMatrix : Bool)
  | saveState
  | recoverState

/-- Whether the call is `saveState()`. -/
def Call.isSaveState {T : Type} : Call T → Bool
  | .saveState => true
  | _ => false

/-- The integrator after one call, whether the call returned or threw. -/
def TimeIntegrator.call {T : Type} [LinearOrderedField T] (env : Collaborators T)
    (self : TimeIntegrator T) : Call T → TimeIntegrator T
  | .setSolutionVector v => (self.setSolutionVector v).state
  | .makeTimeStep dt => (self.makeTimeStep env dt).state
  | .assemble state fixedDofs assembleMatrix => self.assemble env state fixedDofs assembleMatrix
  | .saveState => self.saveState
  | .recoverState => self.recoverState.state

/-- The integrator after a sequence of calls. -/
def TimeIntegrator.run {T : Type} [LinearOrderedField T] (env : Collaborators T)
    (self : TimeIntegrator T) (calls : List (Call T)) : TimeIntegrator T :=
  calls.foldl (TimeIntegrator.call env) self

/-- The product of the matrix with coefficients `a` (column-major, `rows` x `cols`) and the
vector with coefficients `x`. -/
def mulVec {T : Type} [Field T] (rows cols : Nat) (a x : List T) : List T :=
  (List.range rows).map fun i =>
    ((List.range cols).map fun j => a.getD (j * rows + i) 0 * x.getD j 0).sum

/-- Modelled from the spec: the theta-weighted system of section 4.2, which the missing
`implicitLinear` solves: matrix `M/dt + theta K` and right-hand side
`(M/dt - (1 - theta) K) u_n + theta F + (1 - theta) F`, with one assembly giving `F` at
both time levels. -/
def thetaSystem {T : Type} [Field T] (dt theta : T)
    (massOut stiffOut : gsSparseMatrix T × gsMatrix T) (previous _guess : gsMatrix T) :
    gsSparseMatrix T × gsMatrix T :=
  let M := massOut.1
  let K := stiffOut.1
  let F := stiffOut.2
  let explicitOp := List.zipWith (fun m k => m / dt - (1 - theta) * k) M.coeffs K.coeffs
  (⟨K.rows, K.cols, List.zipWith (fun m k => m / dt + theta * k) M.coeffs K.coeffs⟩,
    ⟨F.rows, 1,
      List.zipWith (fun e f => e + (theta * f + (1 - theta) * f))
        (mulVec K.rows K.cols explicitOp previous.coeffs) F.coeffs⟩)

/-- Modelled from the spec: the tangent system of the Newton iteration of section 4.2, which
the missing `implicitNonlinear` solves for the correction: matrix `M/dt + theta K(u)` and
right-hand side `-R(u)` for the residual
`R(u) = M (u - u_n)/dt + theta K(u) u - theta F(u) - (1 - theta) (F(u) - K(u) u_n)`. -/
def residualSystem {T : Type} [Field T] (dt theta : T)
    (massOut stiffOut : gsSparseMatrix T × gsMatrix T) (previous guess : gsMatrix T) :
    gsSparseMatrix T × gsMatrix T :=
  let M := massOut.1
  let K := stiffOut.1
  let F := stiffOut.2
  let increment := List.zipWith (fun a b => (a - b) / dt) guess.coeffs previous.coeffs
  let inertia := mulVec K.rows K.cols M.coeffs increment
  let Ku := mulVec K.rows K.cols K.coeffs guess.coeffs
  let Kn := mulVec K.rows K.cols K.coeffs previous.coeffs
  let implicitPart := List.zipWith (fun a f => theta * a - theta * f) Ku F.coeffs
  let history := List.zipWith (fun f a => (1 - theta) * (f - a)) F.coeffs Kn
  (⟨K.rows, K.cols, List.zipWith (fun m k => m / dt + theta * k) M.coeffs K.coeffs⟩,
    ⟨F.rows, 1,
      List.zipWith (fun a b => -(a - b)) (List.zipWith (fun a b => a + b) inertia implicitPart)
        history⟩)

/-! ## Concrete objects -/

/-- A column vector of `n` zeros. -/
def zeroVector (n : Nat) : gsMatrix Int :=
  ⟨n, 1, List.replicate n 0⟩

/-- The column vector with the given coefficients. -/
def columnVector (xs : List Int) : gsMatrix Int :=
  ⟨xs.length, 1, xs⟩

/-- A mass assembler for a two-dimensional problem with `n` free degrees of freedom, an empty
system and the fixed DoFs `ddof`. -/
def sampleMass (n : Nat) (ddof : List (gsMatrix Int)) : gsMassAssembler Int :=
  { m_dim := 2
    parDim := 2
    m_bases := 2
    m_options := ⟨11, 1, 1⟩
    m_system := ⟨⟨n, n, List.replicate (n * n) 0⟩, zeroVector n, n⟩
    m_ddof := ddof }

/-- An integrator whose stiffness assembler reports `nStiff` degrees of freedom and whose
mass assembler reports `nMass`, with current solution `sol` and previous solution `old`. -/
def sampleIntegrator (nStiff nMass : Nat) (sol old : gsMatrix Int) : gsNsTimeIntegrator Int :=
  { stiffAssembler := ⟨nStiff⟩
    massAssembler := sampleMass nMass []
    m_matrix := ⟨nStiff, nStiff, List.replicate (nStiff * nStiff) 0⟩
    m_rhs := zeroVector nStiff
    constRHS := zeroVector nStiff
    tStep := 1
    oldTimeStep := 1
    solVector := sol
    oldSolVector := old
    m_system := ⟨⟨nStiff, nStiff, List.replicate (nStiff * nStiff) 0⟩, zeroVector nStiff, nStiff⟩
    m_options := ⟨11, 1, 1⟩
    m_ddof := []
    velVecSaved := ⟨0, 0, []⟩
    oldVecSaved := ⟨0, 0, []⟩
    massRhsSaved := ⟨0, 0, []⟩
    stiffRhsSaved := ⟨0, 0, []⟩
    stiffMatrixSaved := ⟨0, 0, []⟩
    ddofsSaved := [] }

/-- The scalar decay problem u' = -u: mass matrix 1, stiffness matrix 1, no load, one degree
of freedom, stepped with backward Euler (theta = 1) through the given scheme and linear
solver. -/
def decayProblem (scheme : Scheme)
    (solve : gsSparseMatrix ℚ → gsMatrix ℚ → Except SolverFailureReason (gsMatrix ℚ)) :
    Collaborators ℚ :=
  { stiff := ⟨1, fun _ _ _ => (⟨1, 1, [1]⟩, ⟨1, 1, [0]⟩)⟩
    mass := ⟨1, fun _ _ _ => (⟨1, 1, [1]⟩, ⟨1, 1, [0]⟩)⟩
    solve := solve
    config := ⟨1, 1 / 100, 3, scheme⟩
    combine := if scheme = .implicitNonlinear then residualSystem else thetaSystem
    norm := fun r => |r.coeffs.getD 0 0| }

/-- A linear solver that reports a singular matrix for every system. -/
def failingSolve (_ : gsSparseMatrix ℚ) (_ : gsMatrix ℚ) :
    Except SolverFailureReason (gsMatrix ℚ) :=
  .error .singularMatrix

/-- The exact solver for systems of one equation. -/
def scalarSolve (A : gsSparseMatrix ℚ) (b : gsMatrix ℚ) :
    Except SolverFailureReason (gsMatrix ℚ) :=
  if A.coeffs.getD 0 0 = 0 then .error .singularMatrix
  else .ok ⟨1, 1, [b.coeffs.getD 0 0 / A.coeffs.getD 0 0]⟩

/-- An integrator over the rationals with one degree of freedom, current solution `u`,
previous solution `old`, the given checkpoint slot, in state `Converged`. -/
def scalarIntegrator (u old : ℚ) (slot : Option (Checkpoint ℚ)) : TimeIntegrator ℚ :=
  { core :=
      { stiffAssembler := ⟨1⟩
        massAssembler := ⟨2, 2, 2, ⟨11, 1, 1⟩, ⟨⟨1, 1, [1]⟩, ⟨1, 1, [0]⟩, 1⟩, []⟩
        m_matrix := ⟨1, 1, [0]⟩
        m_rhs := ⟨1, 1, [0]⟩
        constRHS := ⟨1, 1, [0]⟩
        tStep := 1
        oldTimeStep := 1
        solVector := ⟨1, 1, [u]⟩
        oldSolVector := ⟨1, 1, [old]⟩
        m_system := ⟨⟨1, 1, [0]⟩, ⟨1, 1, [0]⟩, 1⟩
        m_options := ⟨11, 1, 1⟩
        m_ddof := []
        velVecSaved := ⟨0, 0, []⟩
        oldVecSaved := ⟨0, 0, []⟩
        massRhsSaved := ⟨0, 0, []⟩
        stiffRhsSaved := ⟨0, 0, []⟩
        stiffMatrixSaved := ⟨0, 0, []⟩
        ddofsSaved := [] }
    checkpoint := slot
    phase := .Converged }

/-- A mass visitor over a 1 x 1 system: with `assembleMatrix` it pushes the value 5 to the
matrix entry (0, 0), without it nothing to the matrix; in both cases it pushes 3 to the
right-hand side. -/
def sampleVisitor : gsVisitorMass Int :=
  { matrixEntries := fun assembleMatrix _ => if assembleMatrix then [(0, 0, 5)] else []
    rhsEntries := fun _ _ => [(0, 3)] }

/-- A base class for the sample assemblers: the system is kept and the Dirichlet DoFs of every
component are a column of zeros with one row per free degree of freedom. -/
def sampleBase : gsAssembler Int :=
  { sparseSystem := fun a => a.m_system
    computeDirichletDofs := fun d a => a.m_ddof.set d (zeroVector a.m_system.numDofs) }

/-- A mass assembler with body-force dimension `m_dim`, a domain of parametric dimension
`parDim`, `n` bases and the option `bdO` at `b`. -/
def dimMass (m_dim parDim : Int) (n : Nat) (b : ℚ) : gsMassAssembler Int :=
  { m_dim := m_dim
    parDim := parDim
    m_bases := n
    m_options := ⟨11, b, 1⟩
    m_system := ⟨⟨1, 1, [0]⟩, zeroVector 1, 1⟩
    m_ddof := [] }

/-- A mass visitor over a 1 x 1 system that pushes the value 5 to the matrix entry (0, 0) and
3 to the right-hand side whatever flag it was constructed with. -/
def flagBlindVisitor : gsVisitorMass Int :=
  { matrixEntries := fun _ _ => [(0, 0, 5)]
    rhsEntries := fun _ _ => [(0, 3)] }

/-! ## setSolutionVector -/

section setSolutionVector

variable {T : Type}

/-- C1: a vector whose row count differs from `numDofs()` makes `setSolutionVector` fail with
the wrong-size error, and `solutionVector()` and `SolutionVectorOld()` return after the
failed call what they returned before it. -/
theorem setSolutionVector_wrong_size_fails (self : gsNsTimeIntegrator T) (v : gsMatrix T)
    (h : v.rows ≠ self.numDofs) :
    (self.setSolutionVector v).result = .error (.wrongSolutionVectorSize v.rows self.numDofs) ∧
    (self.setSolutionVector v).state.solutionVector = self.solutionVector ∧
    (self.setSolutionVector v).state.SolutionVectorOld = self.SolutionVectorOld := by
  have h1 : ¬ v.rows = self.stiffAssembler.numDofs := h
  simp [gsNsTimeIntegrator.setSolutionVector, gsNsTimeIntegrator.numDofs, h1]

/-- Witness of C1 at numDofs() = 120 and a vector of 100 rows. -/
theorem setSolutionVector_wrong_size_fails_witness :
    (zeroVector 100).rows ≠ (sampleIntegrator 120 120 (zeroVector 120) (zeroVector 120)).numDofs ∧
    ((sampleIntegrator 120 120 (zeroVector 120) (zeroVector 120)).setSolutionVector
        (zeroVector 100)).result = .error (.wrongSolutionVectorSize 100 120) ∧
    ((sampleIntegrator 120 120 (zeroVector 120) (zeroVector 120)).setSolutionVector
        (zeroVector 100)).state.solutionVector = zeroVector 120 ∧
    ((sampleIntegrator 120 120 (zeroVector 120) (zeroVector 120)).setSolutionVector
        (zeroVector 100)).state.SolutionVectorOld = zeroVector 120 :=
  ⟨by decide,
    setSolutionVector_wrong_size_fails (sampleIntegrator 120 120 (zeroVector 120) (zeroVector 120))
      (zeroVector 100) (by decide)⟩

/-- C2: a vector with `rows() == numDofs()` is accepted and becomes the current solution:
afterwards `solutionVector()` is that vector. -/
theorem setSolutionVector_right_size_replaces (self : gsNsTimeIntegrator T) (v : gsMatrix T)
    (h : v.rows = self.numDofs) :
    (self.setSolutionVector v).result = .ok () ∧
    (self.setSolutionVector v).state.solutionVector = v := by
  have h1 : v.rows = self.stiffAssembler.numDofs := h
  simp [gsNsTimeIntegrator.setSolutionVector, gsNsTimeIntegrator.solutionVector, h1]

/-- Witness of C2 at three degrees of freedom. -/
theorem setSolutionVector_right_size_replaces_witness :
    (columnVector [7, 8, 9]).rows = (sampleIntegrator 3 3 (zeroVector 3) (zeroVector 3)).numDofs ∧
    ((sampleIntegrator 3 3 (zeroVector 3) (zeroVector 3)).setSolutionVector
        (columnVector [7, 8, 9])).result = .ok () ∧
    ((sampleIntegrator 3 3 (zeroVector 3) (zeroVector 3)).setSolutionVector
        (columnVector [7, 8, 9])).state.solutionVector = columnVector [7, 8, 9] :=
  ⟨by decide,
    setSolutionVector_right_size_replaces (sampleIntegrator 3 3 (zeroVector 3) (zeroVector 3))
      (columnVector [7, 8, 9]) (by decide)⟩

/-- C3, the claim refuted: with a stiffness assembler of 3 degrees of freedom and a mass
assembler of 5, `setSolutionVector` accepts a vector of 3 rows. -/
theorem setSolutionVector_ignores_mass_counterexample :
    (sampleIntegrator 3 5 (zeroVector 3) (zeroVector 3)).stiffAssembler.numDofs ≠
      (sampleIntegrator 3 5 (zeroVector 3) (zeroVector 3)).massAssembler.numDofs ∧
    ((sampleIntegrator 3 5 (zeroVector 3) (zeroVector 3)).setSolutionVector
        (columnVector [7, 8, 9])).result = .ok () ∧
    ((sampleIntegrator 3 5 (zeroVector 3) (zeroVector 3)).setSolutionVector
        (columnVector [7, 8, 9])).state.solutionVector = columnVector [7, 8, 9] := by
  decide

/-- C3 as amended: in a state whose two assemblers report different `numDofs()`,
`setSolutionVector(v)` succeeds exactly when the row count of `v` is the stiffness
assembler's `numDofs()` and fails with the wrong-size error otherwise; the mass
assembler's `numDofs()` is not consulted. -/
theorem setSolutionVector_checks_stiffness_only (self : gsNsTimeIntegrator T) (v : gsMatrix T)
    (_hne : self.stiffAssembler.numDofs ≠ self.massAssembler.numDofs) :
    ((self.setSolutionVector v).result = .ok () ↔ v.rows = self.stiffAssembler.numDofs) ∧
    ((self.setSolutionVector v).result =
        .error (.wrongSolutionVectorSize v.rows self.stiffAssembler.numDofs) ↔
      v.rows ≠ self.stiffAssembler.numDofs) := by
  by_cases h : v.rows = self.stiffAssembler.numDofs <;>
    simp [gsNsTimeIntegrator.setSolutionVector, h]

/-- Witness of the amended C3 at 3 and 5 degrees of freedom. -/
theorem setSolutionVector_checks_stiffness_only_witness :
    (((sampleIntegrator 3 5 (zeroVector 3) (zeroVector 3)).setSolutionVector
        (zeroVector 5)).result = .ok () ↔
      (zeroVector 5).rows = 3) ∧
    (((sampleIntegrator 3 5 (zeroVector 3) (zeroVector 3)).setSolutionVector
        (zeroVector 5)).result = .error (.wrongSolutionVectorSize 5 3) ↔
      (zeroVector 5).rows ≠ 3) :=
  setSolutionVector_checks_stiffness_only (sampleIntegrator 3 5 (zeroVector 3) (zeroVector 3))
    (zeroVector 5) (by decide)

end setSolutionVector

/-! ## setFixedDofs -/

section setFixedDofs

variable {T : Type}

/-- The loop returns normally exactly when the row counts agree at every index it still has
to visit. -/
theorem setFixedDofsLoop_ok_iff (ddofs : List (gsMatrix T)) :
    ∀ (n d : Nat) (m : List (gsMatrix T)), d + n = m.length → m.length ≤ ddofs.length →
      ((setFixedDofsLoop ddofs n d m).result = .ok () ↔
        ∀ i, d ≤ i → i < m.length →
          (m[i]?).map gsMatrix.rows = (ddofs[i]?).map gsMatrix.rows) := by
  intro n
  induction n with
  | zero =>
    intro d m hlen _
    simp only [setFixedDofsLoop, true_iff]
    intro i hi hi2
    omega
  | succ n ih =>
    intro d m hlen hle
    have hd : d < m.length := by omega
    have hd2 : d < ddofs.length := by omega
    simp only [setFixedDofsLoop, List.getElem?_eq_getElem hd, List.getElem?_eq_getElem hd2]
    by_cases hrows : m[d].rows = ddofs[d].rows
    · simp only [hrows, if_true]
      rw [ih (d + 1) (m.set d ddofs[d]) (by simp; omega) (by simpa using hle)]
      constructor
      · intro h i hi hi2
        by_cases hid : i = d
        · subst hid
          simp [List.getElem?_eq_getElem hd, List.getElem?_eq_getElem hd2, hrows]
        · have := h i (by omega) (by simpa using hi2)
          rwa [List.getElem?_set_ne (by omega)] at this
      · intro h i hi hi2
        have := h i (by omega) (by simpa using hi2)
        rwa [List.getElem?_set_ne (by omega)]
    · simp only [hrows, if_false]
      constructor
      · intro h
        cases h
      · intro h
        have := h d (le_refl d) hd
        simp [List.getElem?_eq_getElem hd, List.getElem?_eq_getElem hd2] at this
        exact absurd this hrows

/-- When the loop returns normally, the components it visited hold the input and the ones
before the counter are as they were. -/
theorem setFixedDofsLoop_ok_state (ddofs : List (gsMatrix T)) :
    ∀ (n d : Nat) (m : List (gsMatrix T)), d + n = m.length → m.length ≤ ddofs.length →
      (setFixedDofsLoop ddofs n d m).result = .ok () →
        (setFixedDofsLoop ddofs n d m).state = m.take d ++ (ddofs.drop d).take n := by
  intro n
  induction n with
  | zero =>
    intro d m hlen _ _
    have : d = m.length := by omega
    simp [setFixedDofsLoop, this]
  | succ n ih =>
    intro d m hlen hle
    have hd : d < m.length := by omega
    have hd2 : d < ddofs.length := by omega
    simp only [setFixedDofsLoop, List.getElem?_eq_getElem hd, List.getElem?_eq_getElem hd2]
    by_cases hrows : m[d].rows = ddofs[d].rows
    · simp only [hrows, if_true]
      intro hok
      rw [ih (d + 1) (m.set d ddofs[d]) (by simp; omega) (by simpa using hle) hok]
      have h1 : (m.set d ddofs[d]).take (d + 1) = m.take d ++ [ddofs[d]] := by
        have h0 : (m.set d ddofs[d]).take d = m.take d := by
          rw [List.set_take]
          exact List.set_eq_of_length_le (by simp)
        rw [List.take_succ, h0]
        simp [List.getElem?_set, hd]
      have h2 : (ddofs.drop d).take (n + 1) = ddofs[d] :: (ddofs.drop (d + 1)).take n := by
        rw [List.drop_eq_getElem_cons hd2, List.take_succ_cons]
      rw [h1, h2]
      simp
    · simp only [hrows, if_false]
      intro h
      cases h

/-- On a container that is long enough, `setFixedDofs` returns what its loop returns. -/
theorem setFixedDofs_of_le (self : gsMassAssembler T) (ddofs : List (gsMatrix T))
    (hle : self.m_ddof.length ≤ ddofs.length) :
    (self.setFixedDofs ddofs).result =
        (setFixedDofsLoop ddofs self.m_ddof.length 0 self.m_ddof).result ∧
      (self.setFixedDofs ddofs).state =
        { self with m_ddof := (setFixedDofsLoop ddofs self.m_ddof.length 0 self.m_ddof).state } := by
  simp [gsMassAssembler.setFixedDofs, hle]

/-- The success condition of `setFixedDofs`. -/
theorem setFixedDofs_ok_iff (self : gsMassAssembler T) (ddofs : List (gsMatrix T)) :
    (self.setFixedDofs ddofs).result = .ok () ↔
      (self.m_ddof.length ≤ ddofs.length ∧
        ∀ d, d < self.m_ddof.length →
          (ddofs[d]?).map gsMatrix.rows = (self.m_ddof[d]?).map gsMatrix.rows) := by
  by_cases hle : self.m_ddof.length ≤ ddofs.length
  · rw [(setFixedDofs_of_le self ddofs hle).1,
      setFixedDofsLoop_ok_iff ddofs self.m_ddof.length 0 self.m_ddof (by simp) hle]
    constructor
    · intro h
      exact ⟨hle, fun d hd => (h d (Nat.zero_le d) hd).symm⟩
    · intro h d _ hd
      exact (h.2 d hd).symm
  · have hlt : ¬ ddofs.length ≥ self.m_ddof.length := hle
    simp [gsMassAssembler.setFixedDofs, hlt, hle]

/-- The fixed DoFs after a successful `setFixedDofs`: the first `m_ddof.size()` entries of
the input. -/
theorem setFixedDofs_ok_state (self : gsMassAssembler T) (ddofs : List (gsMatrix T))
    (hok : (self.setFixedDofs ddofs).result = .ok ()) :
    (self.setFixedDofs ddofs).state = { self with m_ddof := ddofs.take self.m_ddof.length } := by
  have hle := ((setFixedDofs_ok_iff self ddofs).1 hok).1
  have h := setFixedDofs_of_le self ddofs hle
  rw [h.1] at hok
  rw [h.2, setFixedDofsLoop_ok_state ddofs self.m_ddof.length 0 self.m_ddof (by simp) hle hok]
  simp

/-- C8: `setFixedDofs(ddofs)` on an assembler whose `m_ddof` has k components succeeds
exactly when `ddofs` has at least k components and the row counts agree on each of the
first k; on success `m_ddof[d]` is `ddofs[d]` for every d below k, there are still k
components, each with the row count it had, and the components of `ddofs` from index k on
have no effect on the outcome. -/
theorem setFixedDofs_refreshes_fixed_dofs (self : gsMassAssembler T)
    (ddofs : List (gsMatrix T)) :
    ((self.setFixedDofs ddofs).result = .ok () ↔
      (self.m_ddof.length ≤ ddofs.length ∧
        ∀ d, d < self.m_ddof.length →
          (ddofs[d]?).map gsMatrix.rows = (self.m_ddof[d]?).map gsMatrix.rows)) ∧
    ((self.setFixedDofs ddofs).result = .ok () →
      (∀ d, d < self.m_ddof.length → (self.setFixedDofs ddofs).state.m_ddof[d]? = ddofs[d]?) ∧
      (self.setFixedDofs ddofs).state.m_ddof.length = self.m_ddof.length ∧
      (∀ d, d < self.m_ddof.length →
        ((self.setFixedDofs ddofs).state.m_ddof[d]?).map gsMatrix.rows =
          (self.m_ddof[d]?).map gsMatrix.rows) ∧
      (∀ other : List (gsMatrix T),
        other.take self.m_ddof.length = ddofs.take self.m_ddof.length →
          (self.setFixedDofs other).result = .ok () ∧
          (self.setFixedDofs other).state = (self.setFixedDofs ddofs).state)) := by
  refine ⟨setFixedDofs_ok_iff self ddofs, fun hok => ?_⟩
  have hiff := (setFixedDofs_ok_iff self ddofs).1 hok
  have hst := setFixedDofs_ok_state self ddofs hok
  have hget : ∀ d, d < self.m_ddof.length →
      (self.setFixedDofs ddofs).state.m_ddof[d]? = ddofs[d]? := by
    intro d hd
    rw [hst]
    simp [List.getElem?_take, hd]
  refine ⟨hget, ?_, ?_, ?_⟩
  · rw [hst]
    simp [hiff.1]
  · intro d hd
    rw [hget d hd, hiff.2 d hd]
  · intro other hother
    have hlen : self.m_ddof.length ≤ other.length := by
      have h1 : (other.take self.m_ddof.length).length = (ddofs.take self.m_ddof.length).length := by
        rw [hother]
      simp only [List.length_take] at h1
      omega
    have hothok : (self.setFixedDofs other).result = .ok () := by
      rw [setFixedDofs_ok_iff]
      refine ⟨hlen, fun d hd => ?_⟩
      have h2 : other[d]? = ddofs[d]? := by
        have h3 : (other.take self.m_ddof.length)[d]? = (ddofs.take self.m_ddof.length)[d]? := by
          rw [hother]
        simpa [List.getElem?_take, hd] using h3
      rw [h2, hiff.2 d hd]
    refine ⟨hothok, ?_⟩
    rw [setFixedDofs_ok_state self other hothok, hst, hother]

/-- C8 at a concrete assembler with two fixed-DoF components of 2 and 1 rows: an input with
a third component is accepted, the two components take the input values and the third
entry is ignored. -/
theorem setFixedDofs_refreshes_fixed_dofs_witness :
    ((sampleMass 4 [zeroVector 2, zeroVector 1]).setFixedDofs
        [columnVector [5, 6], columnVector [7], columnVector [1, 2, 3]]).result = .ok () ∧
    ((sampleMass 4 [zeroVector 2, zeroVector 1]).setFixedDofs
        [columnVector [5, 6], columnVector [7], columnVector [1, 2, 3]]).state.m_ddof =
      [columnVector [5, 6], columnVector [7]] ∧
    ((sampleMass 4 [zeroVector 2, zeroVector 1]).setFixedDofs
        [columnVector [5, 6], columnVector [7]]).state.m_ddof =
      [columnVector [5, 6], columnVector [7]] ∧
    ((sampleMass 4 [zeroVector 2, zeroVector 1]).setFixedDofs
        [columnVector [5, 6, 8], columnVector [7]]).result =
      .error (.wrongNumberOfFixedDofs 0 3 2) ∧
    ((sampleMass 4 [zeroVector 2, zeroVector 1]).setFixedDofs [columnVector [5, 6]]).result =
      .error (.wrongFixedDofsContainerSize 1 2) := by
  have h := setFixedDofs_refreshes_fixed_dofs (sampleMass 4 [zeroVector 2, zeroVector 1])
    [columnVector [5, 6], columnVector [7], columnVector [1, 2, 3]]
  have hok := h.1.2 (by decide)
  exact ⟨hok, by decide, by decide, by decide, by decide⟩

end setFixedDofs

/-! ## Checkpoint: saveState and recoverState -/

section checkpoint

variable {T : Type}

/-- C4: `saveState()` followed at once by `recoverState()` succeeds and is the identity on
the observable state, in every integrator state (so also in every state reached by
successful steps): `solutionVector()`, `SolutionVectorOld()`, the system matrix and rhs
and the fixed-DoF values are what they were before `saveState()`. -/
theorem saveState_recoverState_restores (self : TimeIntegrator T) :
    self.saveState.recoverState.result = .ok () ∧
    self.saveState.recoverState.state.solutionVector = self.solutionVector ∧
    self.saveState.recoverState.state.SolutionVectorOld = self.SolutionVectorOld ∧
    self.saveState.recoverState.state.core.m_matrix = self.core.m_matrix ∧
    self.saveState.recoverState.state.core.m_rhs = self.core.m_rhs ∧
    self.saveState.recoverState.state.core.m_ddof = self.core.m_ddof := by
  simp [TimeIntegrator.saveState, TimeIntegrator.recoverState, TimeIntegrator.snapshot,
    TimeIntegrator.solutionVector, TimeIntegrator.SolutionVectorOld,
    gsNsTimeIntegrator.solutionVector, gsNsTimeIntegrator.SolutionVectorOld]

/-- A call other than `saveState()` leaves an empty checkpoint slot empty. -/
theorem call_keeps_slot_empty [LinearOrderedField T] (env : Collaborators T)
    (self : TimeIntegrator T) (c : Call T) (hslot : self.checkpoint = none)
    (hc : c.isSaveState = false) : (self.call env c).checkpoint = none := by
  cases c with
  | setSolutionVector v => simpa [TimeIntegrator.call, TimeIntegrator.setSolutionVector] using hslot
  | makeTimeStep dt =>
    simp only [TimeIntegrator.call, TimeIntegrator.makeTimeStep]
    split <;> simpa using hslot
  | assemble state fixedDofs assembleMatrix =>
    simp only [TimeIntegrator.call, TimeIntegrator.assemble]
    split <;> simpa using hslot
  | saveState => simp [Call.isSaveState] at hc
  | recoverState => simp [TimeIntegrator.call, TimeIntegrator.recoverState, hslot]

/-- A sequence of calls without `saveState()` leaves an empty checkpoint slot empty. -/
theorem run_keeps_slot_empty [LinearOrderedField T] (env : Collaborators T) :
    ∀ (calls : List (Call T)) (self : TimeIntegrator T), self.checkpoint = none →
      calls.all (fun c => !c.isSaveState) = true → (self.run env calls).checkpoint = none := by
  intro calls
  induction calls with
  | nil =>
    intro self hslot _
    simpa [TimeIntegrator.run] using hslot
  | cons c rest ih =>
    intro self hslot hall
    simp only [List.all_cons, Bool.and_eq_true, Bool.not_eq_true'] at hall
    have := ih (self.call env c) (call_keeps_slot_empty env self c hslot hall.1) hall.2
    simpa [TimeIntegrator.run] using this

/-- C7: in a state reached from an integrator with an empty checkpoint slot by calls among
which there is no `saveState()`, `recoverState()` fails with `NoCheckpointError` and
leaves the integrator, in particular `solutionVector()` and `SolutionVectorOld()`, as it
was. -/
theorem recoverState_without_saveState_fails [LinearOrderedField T] (env : Collaborators T)
    (init : TimeIntegrator T) (calls : List (Call T)) (hinit : init.checkpoint = none)
    (hnever : calls.all (fun c => !c.isSaveState) = true) :
    (init.run env calls).recoverState.result = .error .NoCheckpointError ∧
    (init.run env calls).recoverState.state.solutionVector = (init.run env calls).solutionVector ∧
    (init.run env calls).recoverState.state.SolutionVectorOld =
      (init.run env calls).SolutionVectorOld ∧
    (init.run env calls).recoverState.state = init.run env calls := by
  have hslot := run_keeps_slot_empty env calls init hinit hnever
  simp [TimeIntegrator.recoverState, hslot]

/-- Witness of C7: a time step, a new solution vector and an assembly, but no `saveState()`,
on the scalar decay problem. -/
theorem recoverState_without_saveState_fails_witness :
    (scalarIntegrator 8 9 none).checkpoint = none ∧
    ((scalarIntegrator 8 9 none).run (decayProblem .implicitLinear scalarSolve)
        [.makeTimeStep 1, .setSolutionVector ⟨1, 1, [5]⟩,
          .assemble ⟨1, 1, [5]⟩ [] true]).recoverState.result = .error .NoCheckpointError ∧
    ((scalarIntegrator 8 9 none).run (decayProblem .implicitLinear scalarSolve)
        [.makeTimeStep 1, .setSolutionVector ⟨1, 1, [5]⟩,
          .assemble ⟨1, 1, [5]⟩ [] true]).recoverState.state.solutionVector =
      ((scalarIntegrator 8 9 none).run (decayProblem .implicitLinear scalarSolve)
        [.makeTimeStep 1, .setSolutionVector ⟨1, 1, [5]⟩,
          .assemble ⟨1, 1, [5]⟩ [] true]).solutionVector :=
  ⟨rfl,
    (recoverState_without_saveState_fails (decayProblem .implicitLinear scalarSolve)
      (scalarIntegrator 8 9 none)
      [.makeTimeStep 1, .setSolutionVector ⟨1, 1, [5]⟩, .assemble ⟨1, 1, [5]⟩ [] true]
      rfl rfl).1,
    (recoverState_without_saveState_fails (decayProblem .implicitLinear scalarSolve)
      (scalarIntegrator 8 9 none)
      [.makeTimeStep 1, .setSolutionVector ⟨1, 1, [5]⟩, .assemble ⟨1, 1, [5]⟩ [] true]
      rfl rfl).2.1⟩

/-- C10: the checkpoint is one slot and the last write wins. After `saveState()` in `s1`,
a move to `s2` and a second `saveState()`, a `recoverState()` made at once, or later in any
state `s3` that still holds that checkpoint, succeeds and restores the solution vectors,
system and fixed DoFs of `s2`; and `saveState()` twice in a row leaves what one call
leaves. -/
theorem saveState_last_write_wins (s1 s2 s3 : TimeIntegrator T) :
    ((s1.saveState.movedTo s2).saveState.recoverState.result = .ok () ∧
      (s1.saveState.movedTo s2).saveState.recoverState.state.core = s2.core) ∧
    (((s1.saveState.movedTo s2).saveState.movedTo s3).recoverState.result = .ok () ∧
      ((s1.saveState.movedTo s2).saveState.movedTo s3).recoverState.state.solutionVector =
        s2.solutionVector ∧
      ((s1.saveState.movedTo s2).saveState.movedTo s3).recoverState.state.SolutionVectorOld =
        s2.SolutionVectorOld ∧
      ((s1.saveState.movedTo s2).saveState.movedTo s3).recoverState.state.core.m_matrix =
        s2.core.m_matrix ∧
      ((s1.saveState.movedTo s2).saveState.movedTo s3).recoverState.state.core.m_rhs =
        s2.core.m_rhs ∧
      ((s1.saveState.movedTo s2).saveState.movedTo s3).recoverState.state.core.m_ddof =
        s2.core.m_ddof) ∧
    s1.saveState.saveState = s1.saveState := by
  simp [TimeIntegrator.saveState, TimeIntegrator.recoverState, TimeIntegrator.snapshot,
    TimeIntegrator.movedTo, TimeIntegrator.solutionVector, TimeIntegrator.SolutionVectorOld,
    gsNsTimeIntegrator.solutionVector, gsNsTimeIntegrator.SolutionVectorOld]

/-- The last write wins, on concrete states: saved at u = 1, moved to u = 2 and saved again,
moved to u = 3; the recovery gives u = 2. -/
theorem last_write_wins_on_scalar_states :
    (((scalarIntegrator 1 0 none).saveState.movedTo (scalarIntegrator 2 1 none)).saveState.movedTo
        (scalarIntegrator 3 2 none)).recoverState.state.solutionVector = ⟨1, 1, [2]⟩ :=
  rfl

end checkpoint

/-! ## makeTimeStep -/

section makeTimeStep

variable {T : Type}

/-- The Newton iteration fails only by divergence or by a failure of the linear solve. -/
theorem newton_error_kind [LinearOrderedField T] (env : Collaborators T) (self : TimeIntegrator T) (dt r0 : T) :
    ∀ (k : Nat) (u : gsMatrix T) (rLast : T) (grown : Nat) (e : CoreError),
      TimeIntegrator.newton env self dt r0 k u rLast grown = .error e →
        e = .NonlinearDivergence ∨ ∃ reason, e = .SolverFailure reason := by
  intro k
  induction k with
  | zero =>
    intro u rLast grown e h
    simp only [TimeIntegrator.newton] at h
    cases h
    exact Or.inl rfl
  | succ k ih =>
    intro u rLast grown e h
    unfold TimeIntegrator.newton at h
    dsimp only at h
    repeat' split at h
    all_goals first
      | exact ih _ _ _ e h
      | (cases h; exact Or.inl rfl)
      | (cases h; exact Or.inr ⟨_, rfl⟩)
      | cases h

/-- The linear step fails only by a failure of the linear solve. -/
theorem implicitLinear_error_kind (env : Collaborators T) (self : TimeIntegrator T) (dt : T)
    (e : CoreError) (h : TimeIntegrator.implicitLinear env self dt = .error e) :
    ∃ reason, e = .SolverFailure reason := by
  simp only [TimeIntegrator.implicitLinear] at h
  split at h
  · cases h
    exact ⟨_, rfl⟩
  · cases h

/-- C6: when `makeTimeStep(dt)` with dt > 0 fails, the failure is a nonlinear divergence or
a linear-solve failure and no partial update is visible: `solutionVector()` and
`SolutionVectorOld()`, and with them every member of the object of the header, are what
they were before the call; only the lifecycle state changes, to `Failed`. -/
theorem makeTimeStep_failure_leaves_solution [LinearOrderedField T] (env : Collaborators T) (self : TimeIntegrator T)
    (dt : T) (_hdt : 0 < dt) (e : CoreError)
    (hfail : (self.makeTimeStep env dt).result = .error e) :
    (e = .NonlinearDivergence ∨ ∃ reason, e = .SolverFailure reason) ∧
    (self.makeTimeStep env dt).state.solutionVector = self.solutionVector ∧
    (self.makeTimeStep env dt).state.SolutionVectorOld = self.SolutionVectorOld ∧
    (self.makeTimeStep env dt).state.core = self.core ∧
    (self.makeTimeStep env dt).state.checkpoint = self.checkpoint ∧
    (self.makeTimeStep env dt).state.phase = .Failed := by
  have hkind : ∀ step : Except CoreError (gsMatrix T × (gsSparseMatrix T × gsMatrix T)),
      step = (match env.config.scheme with
        | .implicitLinear => TimeIntegrator.implicitLinear env self dt
        | .implicitNonlinear => TimeIntegrator.implicitNonlinear env self dt
        | .imexALE => TimeIntegrator.implicitLinear env self dt) →
      step = .error e → (e = .NonlinearDivergence ∨ ∃ reason, e = .SolverFailure reason) := by
    intro step hstep herr
    rw [hstep] at herr
    split at herr
    · exact Or.inr (implicitLinear_error_kind env self dt e herr)
    · exact newton_error_kind env self dt _ _ _ _ _ e herr
    · exact Or.inr (implicitLinear_error_kind env self dt e herr)
  simp only [TimeIntegrator.makeTimeStep] at hfail ⊢
  split at hfail
  · next e1 heq =>
    simp only [Except.error.injEq] at hfail
    subst hfail
    exact ⟨hkind _ rfl heq, rfl, rfl, rfl, rfl, rfl⟩
  · cases hfail

/-- Witness of C6: on the scalar decay problem with a linear solver that reports a singular
matrix, a step of length 1 fails and the solution vectors stay. -/
theorem makeTimeStep_failure_leaves_solution_witness :
    (0 : ℚ) < 1 ∧
    ((scalarIntegrator 8 9 none).makeTimeStep (decayProblem .implicitLinear failingSolve) 1).result =
      .error (.SolverFailure .singularMatrix) ∧
    ((scalarIntegrator 8 9 none).makeTimeStep
        (decayProblem .implicitLinear failingSolve) 1).state.solutionVector = ⟨1, 1, [8]⟩ ∧
    ((scalarIntegrator 8 9 none).makeTimeStep
        (decayProblem .implicitLinear failingSolve) 1).state.SolutionVectorOld = ⟨1, 1, [9]⟩ :=
  have hfail : ((scalarIntegrator 8 9 none).makeTimeStep
      (decayProblem .implicitLinear failingSolve) 1).result =
      .error (.SolverFailure .singularMatrix) := rfl
  have h := makeTimeStep_failure_leaves_solution (decayProblem .implicitLinear failingSolve)
    (scalarIntegrator 8 9 none) 1 one_pos (.SolverFailure .singularMatrix) hfail
  ⟨one_pos, hfail, h.2.1, h.2.2.1⟩

/-- On the scalar decay problem a backward Euler step of length 1 from u = 8 succeeds with
the linear scheme and gives u = 4, the old current solution becoming the previous one. -/
theorem makeTimeStep_linear_decay_step :
    ((scalarIntegrator 8 9 none).makeTimeStep (decayProblem .implicitLinear scalarSolve) 1).result =
      .ok () ∧
    ((scalarIntegrator 8 9 none).makeTimeStep
        (decayProblem .implicitLinear scalarSolve) 1).state.solutionVector = ⟨1, 1, [4]⟩ ∧
    ((scalarIntegrator 8 9 none).makeTimeStep
        (decayProblem .implicitLinear scalarSolve) 1).state.SolutionVectorOld = ⟨1, 1, [8]⟩ := by
  simp [TimeIntegrator.makeTimeStep, decayProblem, TimeIntegrator.implicitLinear,
    TimeIntegrator.stepSystem, thetaSystem, scalarSolve, scalarIntegrator,
    TimeIntegrator.solutionVector, gsNsTimeIntegrator.solutionVector,
    TimeIntegrator.SolutionVectorOld, gsNsTimeIntegrator.SolutionVectorOld, mulVec,
    List.range, List.range.loop]
  norm_num

/-- On the scalar decay problem the Newton iteration converges in one correction to the same
u = 4. -/
theorem makeTimeStep_newton_decay_step :
    ((scalarIntegrator 8 9 none).makeTimeStep
        (decayProblem .implicitNonlinear scalarSolve) 1).result = .ok () ∧
    ((scalarIntegrator 8 9 none).makeTimeStep
        (decayProblem .implicitNonlinear scalarSolve) 1).state.solutionVector = ⟨1, 1, [4]⟩ := by
  simp [TimeIntegrator.makeTimeStep, decayProblem, TimeIntegrator.implicitNonlinear,
    TimeIntegrator.newton, TimeIntegrator.stepSystem, residualSystem, scalarSolve,
    scalarIntegrator, TimeIntegrator.solutionVector, gsNsTimeIntegrator.solutionVector, mulVec,
    List.range, List.range.loop, TimeIntegrator.correct]
  norm_num

end makeTimeStep

/-! ## assemble -/

section assemble

variable {T : Type}

/-- What the mass assembler's matrix holds after `assemble(false)` is decided by the visitor.
With a visitor that pushes its matrix entry only with the flag, `assemble(false)` after
`assemble(true)` leaves the zero matrix where 5 stood; with a visitor that pushes the same
entry whatever the flag, the matrix holds 5 before and after. -/
theorem massAssemble_matrix_follows_visitor :
    ((sampleMass 1 []).assemble sampleVisitor true).m_system.matrix = ⟨1, 1, [5]⟩ ∧
    (((sampleMass 1 []).assemble sampleVisitor true).assemble sampleVisitor false).m_system.matrix =
      ⟨1, 1, [0]⟩ ∧
    ((sampleMass 1 []).assemble flagBlindVisitor true).m_system.matrix = ⟨1, 1, [5]⟩ ∧
    (((sampleMass 1 []).assemble flagBlindVisitor true).assemble flagBlindVisitor
        false).m_system.matrix = ⟨1, 1, [5]⟩ := by
  decide

end assemble

/-! ## The constructor and refresh of the mass assembler -/

section refresh

variable {T : Type}

/-- With enough fuel the loop of the constructor ends by its own condition, having pushed one
basis for each value of the counter below `m_dim`. -/
theorem pushBasesLoop_eq (m_dim : Int) :
    ∀ (fuel : Nat) (d : Int) (count : Nat), (m_dim - d).toNat ≤ fuel →
      pushBasesLoop m_dim fuel d count = count + (m_dim - d).toNat := by
  intro fuel
  induction fuel with
  | zero =>
    intro d count h
    simp only [pushBasesLoop]
    omega
  | succ fuel ih =>
    intro d count h
    simp only [pushBasesLoop]
    split
    · rw [ih (d + 1) (count + 1) (by omega)]
      omega
    · omega

/-- The constructor builds `m_dim` bases (none for a dimension below zero), and more fuel
would not change that. -/
theorem constructBases_count (targetDim : Int) :
    (gsMassAssembler.constructBases targetDim).1 = targetDim ∧
    (gsMassAssembler.constructBases targetDim).2 = targetDim.toNat ∧
    ∀ fuel, targetDim.toNat ≤ fuel → pushBasesLoop targetDim fuel 0 0 = targetDim.toNat := by
  refine ⟨rfl, ?_, ?_⟩
  · simp only [gsMassAssembler.constructBases]
    rw [pushBasesLoop_eq targetDim targetDim.toNat 0 0 (by simp)]
    simp
  · intro fuel h
    rw [pushBasesLoop_eq targetDim fuel 0 0 (by simpa using h)]
    simp

/-- The two checks of `refresh` pass exactly for a dimension that is the parametric dimension
of the domain and is 2 or 3. -/
theorem refreshChecks_ok_iff (self : gsMassAssembler T) :
    self.refreshChecks = .ok () ↔
      self.m_dim = self.parDim ∧ (self.m_dim = 2 ∨ self.m_dim = 3) := by
  unfold gsMassAssembler.refreshChecks
  split
  · next h1 =>
    split
    · next h2 => exact ⟨fun _ => ⟨h1, h2⟩, fun _ => rfl⟩
    · next h2 => exact ⟨fun h => (by cases h), fun h => absurd h.2 h2⟩
  · next h1 => exact ⟨fun h => (by cases h), fun h => absurd h.1 h1⟩

/-- The outcome of `refresh` carries the result of the two checks. -/
theorem refresh_result (Base : gsAssembler T) (self : gsMassAssembler T) :
    (self.refresh Base).result = self.refreshChecks := by
  unfold gsMassAssembler.refresh
  split
  · next e h => rw [h]
  · next h => rw [h]

/-- C11: `refresh` fails, leaving the assembler as it is, when `m_dim` differs from the
parametric dimension of the domain, and it fails when `m_dim` is neither 2 nor 3; it gets
past both checks, and then returns normally, exactly when `m_dim` is the parametric
dimension and is 2 or 3. The constructor sets `m_dim` to the target dimension of the body
force and builds as many bases. -/
theorem refresh_accepts_dimensions_two_and_three (Base : gsAssembler T)
    (self : gsMassAssembler T) (targetDim : Int) :
    (self.m_dim ≠ self.parDim →
      (self.refresh Base).result = .error .rhsDimensionMismatch ∧
        (self.refresh Base).state = self) ∧
    (¬ (self.m_dim = 2 ∨ self.m_dim = 3) →
      ((self.refresh Base).result = .error .rhsDimensionMismatch ∨
          (self.refresh Base).result = .error .unsupportedDimension) ∧
        (self.refresh Base).state = self) ∧
    (self.refreshChecks = .ok () ↔
      self.m_dim = self.parDim ∧ (self.m_dim = 2 ∨ self.m_dim = 3)) ∧
    ((self.refresh Base).result = .ok () ↔
      self.m_dim = self.parDim ∧ (self.m_dim = 2 ∨ self.m_dim = 3)) ∧
    (gsMassAssembler.constructBases targetDim).1 = targetDim ∧
    (0 ≤ targetDim →
      ((gsMassAssembler.constructBases targetDim).2 : Int) =
        (gsMassAssembler.constructBases targetDim).1) := by
  refine ⟨?_, ?_, refreshChecks_ok_iff self, ?_, rfl, ?_⟩
  · intro h
    have hc : self.refreshChecks = .error .rhsDimensionMismatch := by
      simp [gsMassAssembler.refreshChecks, h]
    simp [gsMassAssembler.refresh, hc]
  · intro h
    by_cases h1 : self.m_dim = self.parDim
    · have hc : self.refreshChecks = .error .unsupportedDimension := by
        unfold gsMassAssembler.refreshChecks
        rw [if_pos h1, if_neg h]
      simp [gsMassAssembler.refresh, hc]
    · have hc : self.refreshChecks = .error .rhsDimensionMismatch := by
        simp [gsMassAssembler.refreshChecks, h1]
      simp [gsMassAssembler.refresh, hc]
  · rw [refresh_result, refreshChecks_ok_iff]
  · intro h
    rw [(constructBases_count targetDim).2.1, (constructBases_count targetDim).1]
    exact Int.toNat_of_nonneg h

/-- C11 on concrete assemblers: dimension 2 on a domain of dimension 3 fails the first check,
dimension 4 on a domain of dimension 4 fails the second, dimension 3 on a domain of
dimension 3 passes, and the constructor builds 3 bases for a body force of dimension 3. -/
theorem refresh_accepts_dimensions_two_and_three_witness :
    ((dimMass 2 3 2 1).refresh sampleBase).result = .error .rhsDimensionMismatch ∧
    ((dimMass 4 4 4 1).refresh sampleBase).result = .error .unsupportedDimension ∧
    ((dimMass 3 3 3 1).refresh sampleBase).result = .ok () ∧
    ((gsMassAssembler.constructBases 3).2 : Int) = (gsMassAssembler.constructBases 3).1 ∧
    gsMassAssembler.constructBases 3 = (3, 3) :=
  ⟨((refresh_accepts_dimensions_two_and_three sampleBase (dimMass 2 3 2 1) 3).1 (by decide)).1,
    by decide,
    (refresh_accepts_dimensions_two_and_three sampleBase (dimMass 3 3 3 1) 3).2.2.2.1.2
      (by decide),
    (refresh_accepts_dimensions_two_and_three sampleBase (dimMass 3 3 3 1) 3).2.2.2.2.2
      (by decide),
    by decide⟩

/-- The loop over `Base::computeDirichletDofs` changes `m_ddof` only. -/
theorem computeDirichletDofs_loop_frame (Base : gsAssembler T) :
    ∀ (ds : List Nat) (a : gsMassAssembler T),
      (ds.foldl (fun a d => { a with m_ddof := Base.computeDirichletDofs d a }) a).m_dim =
          a.m_dim ∧
        (ds.foldl (fun a d => { a with m_ddof := Base.computeDirichletDofs d a }) a).parDim =
          a.parDim ∧
        (ds.foldl (fun a d => { a with m_ddof := Base.computeDirichletDofs d a }) a).m_bases =
          a.m_bases ∧
        (ds.foldl (fun a d => { a with m_ddof := Base.computeDirichletDofs d a }) a).m_options =
          a.m_options ∧
        (ds.foldl (fun a d => { a with m_ddof := Base.computeDirichletDofs d a }) a).m_system =
          a.m_system := by
  intro ds
  induction ds with
  | nil => intro a; exact ⟨rfl, rfl, rfl, rfl, rfl⟩
  | cons d rest ih =>
    intro a
    simpa using ih { a with m_ddof := Base.computeDirichletDofs d a }

/-- A `refresh` that passes its checks keeps the dimensions and the bases, and sets `bdO` to
`m_bases.size() * (1 + bdO) - 1`, leaving the other options. -/
theorem refresh_ok_members (Base : gsAssembler T) (self : gsMassAssembler T)
    (hok : self.refreshChecks = .ok ()) :
    (self.refresh Base).state.m_dim = self.m_dim ∧
    (self.refresh Base).state.parDim = self.parDim ∧
    (self.refresh Base).state.m_bases = self.m_bases ∧
    (self.refresh Base).state.m_options.bdO =
      (self.m_bases : ℚ) * (1 + self.m_options.bdO) - 1 ∧
    (self.refresh Base).state.m_options.DirichletStrategy = self.m_options.DirichletStrategy ∧
    (self.refresh Base).state.m_options.Density = self.m_options.Density := by
  unfold gsMassAssembler.refresh
  split
  · next e h =>
    rw [hok] at h
    cases h
  · dsimp only
    have h := computeDirichletDofs_loop_frame Base (List.range self.m_bases)
      { self with
        m_system := Base.sparseSystem self
        m_options :=
          { self.m_options with bdO := (self.m_bases : ℚ) * (1 + self.m_options.bdO) - 1 } }
    refine ⟨h.1, h.2.1, h.2.2.1, ?_, ?_, ?_⟩
    · rw [h.2.2.2.1]
    · rw [h.2.2.2.1]
    · rw [h.2.2.2.1]

/-- Repeated `refresh` from an assembler that passes the checks: every call passes them
again, the bases stay, and `bdO` follows the closed form. -/
theorem refreshTimes_members (Base : gsAssembler T) :
    ∀ (k : Nat) (self : gsMassAssembler T), self.refreshChecks = .ok () →
      (gsMassAssembler.refreshTimes Base k self).refreshChecks = .ok () ∧
      (gsMassAssembler.refreshTimes Base k self).m_bases = self.m_bases ∧
      (gsMassAssembler.refreshTimes Base k self).m_options.bdO =
        (self.m_bases : ℚ) ^ k * (1 + self.m_options.bdO) - 1 := by
  intro k
  induction k with
  | zero =>
    intro self hok
    refine ⟨hok, rfl, ?_⟩
    simp [gsMassAssembler.refreshTimes]
  | succ k ih =>
    intro self hok
    have hm := refresh_ok_members Base self hok
    have hok1 : (self.refresh Base).state.refreshChecks = .ok () := by
      rw [refreshChecks_ok_iff] at hok ⊢
      rw [hm.1, hm.2.1]
      exact hok
    have h := ih (self.refresh Base).state hok1
    simp only [gsMassAssembler.refreshTimes]
    refine ⟨h.1, h.2.1.trans hm.2.2.1, ?_⟩
    rw [h.2.2, hm.2.2.1, hm.2.2.2.1]
    ring

/-- C14: a `refresh` that passes its checks returns normally and rewrites the option `bdO`
from its value b to n (1 + b) - 1, with n the number of bases; after k calls in a row,
each of which passes the checks again, the option is n^k (1 + b) - 1, over the rationals;
so for n at least 2 and b other than -1 a call changes the option and a second call
changes it again: `refresh` is not idempotent on the options. -/
theorem refresh_rescales_bdO (Base : gsAssembler T) (self : gsMassAssembler T) (k : Nat)
    (hok : self.refreshChecks = .ok ()) :
    (self.refresh Base).result = .ok () ∧
    (self.refresh Base).state.m_options.bdO =
      (self.m_bases : ℚ) * (1 + self.m_options.bdO) - 1 ∧
    (gsMassAssembler.refreshTimes Base k self).m_options.bdO =
      (self.m_bases : ℚ) ^ k * (1 + self.m_options.bdO) - 1 ∧
    ((gsMassAssembler.refreshTimes Base k self).refresh Base).result = .ok () ∧
    (2 ≤ self.m_bases → self.m_options.bdO ≠ -1 →
      (self.refresh Base).state.m_options.bdO ≠ self.m_options.bdO ∧
      ((self.refresh Base).state.refresh Base).state.m_options.bdO ≠
        (self.refresh Base).state.m_options.bdO) := by
  have hm := refresh_ok_members Base self hok
  have hk := refreshTimes_members Base k self hok
  have h2 := refreshTimes_members Base 2 self hok
  refine ⟨by rw [refresh_result, hok], hm.2.2.2.1, hk.2.2, by rw [refresh_result, hk.1], ?_⟩
  intro hn hb
  have hn1 : (2 : ℚ) ≤ (self.m_bases : ℚ) := by exact_mod_cast hn
  have hb1 : 1 + self.m_options.bdO ≠ 0 := by
    intro h
    apply hb
    linarith
  have hne1 : (self.m_bases : ℚ) - 1 ≠ 0 := by
    intro h
    linarith
  have hne0 : (self.m_bases : ℚ) ≠ 0 := by
    intro h
    linarith
  refine ⟨?_, ?_⟩
  · rw [hm.2.2.2.1]
    intro h
    have h3 : ((self.m_bases : ℚ) - 1) * (1 + self.m_options.bdO) = 0 := by linarith
    rcases mul_eq_zero.1 h3 with h4 | h4
    · exact hne1 h4
    · exact hb1 h4
  · have htwo : ((self.refresh Base).state.refresh Base).state.m_options.bdO =
        (self.m_bases : ℚ) ^ 2 * (1 + self.m_options.bdO) - 1 := by
      simpa [gsMassAssembler.refreshTimes] using h2.2.2
    rw [htwo, hm.2.2.2.1]
    intro h
    have h3 : (self.m_bases : ℚ) * (((self.m_bases : ℚ) - 1) * (1 + self.m_options.bdO)) = 0 := by
      linarith
    rcases mul_eq_zero.1 h3 with h4 | h4
    · exact hne0 h4
    · rcases mul_eq_zero.1 h4 with h5 | h5
      · exact hne1 h5
      · exact hb1 h5

/-- Witness of C14: two bases and `bdO` at 1 give 3 after one `refresh` and 15 after three. -/
theorem refresh_rescales_bdO_witness :
    (dimMass 2 2 2 1).refreshChecks = .ok () ∧
    ((dimMass 2 2 2 1).refresh sampleBase).result = .ok () ∧
    ((dimMass 2 2 2 1).refresh sampleBase).state.m_options.bdO = 3 ∧
    (gsMassAssembler.refreshTimes sampleBase 3 (dimMass 2 2 2 1)).m_options.bdO = 15 := by
  have hok : (dimMass 2 2 2 1).refreshChecks = .ok () := by decide
  have h := refresh_rescales_bdO sampleBase (dimMass 2 2 2 1) 3 hok
  refine ⟨hok, h.1, ?_, ?_⟩
  · rw [h.2.1]
    norm_num [dimMass]
  · rw [h.2.2.1]
    norm_num [dimMass]

end refresh

/-! ## setFixedDofs, failing calls -/

section setFixedDofsFailure

variable {T : Type}

/-- The loop stops at the first component whose row counts differ: it throws for that
component, the components it visited before hold the input, and the components from the
mismatch on are as they were. -/
theorem setFixedDofsLoop_first_mismatch (ddofs : List (gsMatrix T)) :
    ∀ (n d : Nat) (m : List (gsMatrix T)) (d0 : Nat) (a b : gsMatrix T),
      d + n = m.length → m.length ≤ ddofs.length → d ≤ d0 →
      m[d0]? = some a → ddofs[d0]? = some b → a.rows ≠ b.rows →
      (∀ i, d ≤ i → i < d0 → (m[i]?).map gsMatrix.rows = (ddofs[i]?).map gsMatrix.rows) →
        (setFixedDofsLoop ddofs n d m).result = .error (.wrongNumberOfFixedDofs d0 b.rows a.rows) ∧
        (setFixedDofsLoop ddofs n d m).state =
          m.take d ++ (ddofs.drop d).take (d0 - d) ++ m.drop d0 := by
  intro n
  induction n with
  | zero =>
    intro d m d0 a b hlen _ hd0 hm _ _ _
    have hlt : d0 < m.length := by
      rcases List.getElem?_eq_some_iff.1 hm with ⟨h, _⟩
      exact h
    omega
  | succ n ih =>
    intro d m d0 a b hlen hle hd0 hm hb hne hmatch
    have hd : d < m.length := by omega
    have hd2 : d < ddofs.length := by omega
    have hlt : d0 < m.length := by
      rcases List.getElem?_eq_some_iff.1 hm with ⟨h, _⟩
      exact h
    simp only [setFixedDofsLoop, List.getElem?_eq_getElem hd, List.getElem?_eq_getElem hd2]
    by_cases hdd : d = d0
    · subst hdd
      rw [List.getElem?_eq_getElem hd] at hm
      rw [List.getElem?_eq_getElem hd2] at hb
      simp only [Option.some.injEq] at hm hb
      rw [hm, hb]
      simp only [hne, if_false, Nat.sub_self, List.take_zero, List.append_nil,
        List.take_append_drop, and_self]
    · have hlt2 : d < d0 := by omega
      have hrows : m[d].rows = ddofs[d].rows := by
        have h := hmatch d (le_refl d) hlt2
        simpa [List.getElem?_eq_getElem hd, List.getElem?_eq_getElem hd2] using h
      simp only [hrows, if_true]
      have hset : (m.set d ddofs[d])[d0]? = some a := by
        rw [List.getElem?_set_ne (by omega)]
        exact hm
      have hmatch2 : ∀ i, d + 1 ≤ i → i < d0 →
          ((m.set d ddofs[d])[i]?).map gsMatrix.rows = (ddofs[i]?).map gsMatrix.rows := by
        intro i hi hi2
        rw [List.getElem?_set_ne (by omega)]
        exact hmatch i (by omega) hi2
      have h := ih (d + 1) (m.set d ddofs[d]) d0 a b (by simp; omega) (by simpa using hle)
        (by omega) hset hb hne hmatch2
      refine ⟨h.1, ?_⟩
      rw [h.2]
      have h0 : (m.set d ddofs[d]).take d = m.take d := by
        rw [List.set_take]
        exact List.set_eq_of_length_le (by simp)
      have h1 : (m.set d ddofs[d]).take (d + 1) = m.take d ++ [ddofs[d]] := by
        rw [List.take_succ, h0]
        simp [List.getElem?_set, hd]
      have h2 : (ddofs.drop d).take (d0 - d) =
          ddofs[d] :: (ddofs.drop (d + 1)).take (d0 - (d + 1)) := by
        have hsub : d0 - d = (d0 - (d + 1)) + 1 := by omega
        rw [hsub, List.drop_eq_getElem_cons hd2, List.take_succ_cons]
      have h3 : (m.set d ddofs[d]).drop d0 = m.drop d0 :=
        List.drop_set_of_lt _ _ hlt2
      rw [h1, h2, h3]
      simp

/-- C12: `setFixedDofs` is not atomic on a row-count mismatch. For an input with at least
`m_ddof.size()` components whose first mismatching component is d0, the call throws for
component d0 with `m_ddof[d]` already overwritten by `ddofs[d]` for every d below d0 and
`m_ddof[d]` unchanged for every d from d0 on; for an input with fewer components than
`m_ddof` the call throws with the assembler unchanged. -/
theorem setFixedDofs_not_atomic (self : gsMassAssembler T) (ddofs : List (gsMatrix T)) :
    (∀ (d0 : Nat) (a b : gsMatrix T), self.m_ddof.length ≤ ddofs.length →
      self.m_ddof[d0]? = some a → ddofs[d0]? = some b → a.rows ≠ b.rows →
      (∀ d, d < d0 →
        (self.m_ddof[d]?).map gsMatrix.rows = (ddofs[d]?).map gsMatrix.rows) →
        (self.setFixedDofs ddofs).result = .error (.wrongNumberOfFixedDofs d0 b.rows a.rows) ∧
        (self.setFixedDofs ddofs).state =
          { self with m_ddof := ddofs.take d0 ++ self.m_ddof.drop d0 } ∧
        (∀ d, d < d0 → (self.setFixedDofs ddofs).state.m_ddof[d]? = ddofs[d]?) ∧
        (∀ d, d0 ≤ d → (self.setFixedDofs ddofs).state.m_ddof[d]? = self.m_ddof[d]?)) ∧
    (ddofs.length < self.m_ddof.length →
      (self.setFixedDofs ddofs).result =
          .error (.wrongFixedDofsContainerSize ddofs.length self.m_ddof.length) ∧
        (self.setFixedDofs ddofs).state = self) := by
  constructor
  · intro d0 a b hle hm hb hne hmatch
    have hlt : d0 < self.m_ddof.length := by
      rcases List.getElem?_eq_some_iff.1 hm with ⟨h, _⟩
      exact h
    have hloop := setFixedDofsLoop_first_mismatch ddofs self.m_ddof.length 0 self.m_ddof d0 a b
      (by simp) hle (Nat.zero_le d0) hm hb hne (fun i _ hi => hmatch i hi)
    have hcall := setFixedDofs_of_le self ddofs hle
    have hstate : (self.setFixedDofs ddofs).state =
        { self with m_ddof := ddofs.take d0 ++ self.m_ddof.drop d0 } := by
      rw [hcall.2, hloop.2]
      simp
    have htake : (ddofs.take d0).length = d0 := by
      rw [List.length_take]
      omega
    refine ⟨by rw [hcall.1, hloop.1], hstate, ?_, ?_⟩
    · intro d hd
      rw [hstate]
      show (ddofs.take d0 ++ self.m_ddof.drop d0)[d]? = ddofs[d]?
      rw [List.getElem?_append_left (by omega), List.getElem?_take_of_lt hd]
    · intro d hd
      rw [hstate]
      show (ddofs.take d0 ++ self.m_ddof.drop d0)[d]? = self.m_ddof[d]?
      rw [List.getElem?_append_right (by omega), htake, List.getElem?_drop]
      congr 1
      omega
  · intro hlt
    have hnot : ¬ ddofs.length ≥ self.m_ddof.length := by omega
    simp [gsMassAssembler.setFixedDofs, hnot]

/-- C12 on a concrete assembler with components of 2, 1 and 3 rows: an input whose second
component has 2 rows makes the call throw for component 1 after the first component was
overwritten, and an input of one component makes it throw with nothing overwritten. -/
theorem setFixedDofs_not_atomic_witness :
    ((sampleMass 4 [zeroVector 2, zeroVector 1, zeroVector 3]).setFixedDofs
        [columnVector [5, 6], columnVector [7, 8], columnVector [1, 2, 3]]).result =
      .error (.wrongNumberOfFixedDofs 1 2 1) ∧
    ((sampleMass 4 [zeroVector 2, zeroVector 1, zeroVector 3]).setFixedDofs
        [columnVector [5, 6], columnVector [7, 8], columnVector [1, 2, 3]]).state.m_ddof =
      [columnVector [5, 6], zeroVector 1, zeroVector 3] ∧
    ((sampleMass 4 [zeroVector 2, zeroVector 1, zeroVector 3]).setFixedDofs
        [columnVector [5, 6]]).result = .error (.wrongFixedDofsContainerSize 1 3) ∧
    ((sampleMass 4 [zeroVector 2, zeroVector 1, zeroVector 3]).setFixedDofs
        [columnVector [5, 6]]).state = sampleMass 4 [zeroVector 2, zeroVector 1, zeroVector 3] := by
  have h := (setFixedDofs_not_atomic (sampleMass 4 [zeroVector 2, zeroVector 1, zeroVector 3])
    [columnVector [5, 6], columnVector [7, 8], columnVector [1, 2, 3]]).1 1 (zeroVector 1)
    (columnVector [7, 8]) (by decide) rfl rfl (by decide) (by decide)
  have h2 := (setFixedDofs_not_atomic (sampleMass 4 [zeroVector 2, zeroVector 1, zeroVector 3])
    [columnVector [5, 6]]).2 (by decide)
  exact ⟨h.1, by rw [h.2.1]; rfl, h2.1, h2.2⟩

end setFixedDofsFailure

/-! ## setSolutionVector, frame -/

section setSolutionVectorFrame

variable {T : Type}

/-- C13: `setSolutionVector` changes the current solution vector only. Whether the call
succeeds or throws, `SolutionVectorOld()`, the system matrix and right-hand sides
(`m_matrix`, `m_rhs`, `constRHS`), the time-step fields, the fixed DoFs, the saved
checkpoint members, and also the two assemblers, `m_system` and `m_options`, are what
they were. The call accepts `v` exactly when its row count is the stiffness assembler's
`numDofs()`: no other member is read, so two objects whose stiffness assemblers report
the same number, such as one before and one after `initialize()`, accept the same
vectors. -/
theorem setSolutionVector_changes_solVector_only (self other : gsNsTimeIntegrator T)
    (v : gsMatrix T) :
    ((self.setSolutionVector v).state.SolutionVectorOld = self.SolutionVectorOld ∧
      (self.setSolutionVector v).state.m_matrix = self.m_matrix ∧
      (self.setSolutionVector v).state.m_rhs = self.m_rhs ∧
      (self.setSolutionVector v).state.constRHS = self.constRHS ∧
      (self.setSolutionVector v).state.tStep = self.tStep ∧
      (self.setSolutionVector v).state.oldTimeStep = self.oldTimeStep ∧
      (self.setSolutionVector v).state.m_ddof = self.m_ddof) ∧
    ((self.setSolutionVector v).state.velVecSaved = self.velVecSaved ∧
      (self.setSolutionVector v).state.oldVecSaved = self.oldVecSaved ∧
      (self.setSolutionVector v).state.massRhsSaved = self.massRhsSaved ∧
      (self.setSolutionVector v).state.stiffRhsSaved = self.stiffRhsSaved ∧
      (self.setSolutionVector v).state.stiffMatrixSaved = self.stiffMatrixSaved ∧
      (self.setSolutionVector v).state.ddofsSaved = self.ddofsSaved) ∧
    ((self.setSolutionVector v).state.stiffAssembler = self.stiffAssembler ∧
      (self.setSolutionVector v).state.massAssembler = self.massAssembler ∧
      (self.setSolutionVector v).state.m_system = self.m_system ∧
      (self.setSolutionVector v).state.m_options = self.m_options) ∧
    (self.setSolutionVector v).state =
      { self with solVector := (self.setSolutionVector v).state.solVector } ∧
    ((self.setSolutionVector v).result = .ok () ↔ v.rows = self.stiffAssembler.numDofs) ∧
    (other.stiffAssembler.numDofs = self.stiffAssembler.numDofs →
      (other.setSolutionVector v).result = (self.setSolutionVector v).result) := by
  have hframe : (self.setSolutionVector v).state =
      { self with solVector := (self.setSolutionVector v).state.solVector } := by
    unfold gsNsTimeIntegrator.setSolutionVector
    split <;> rfl
  refine ⟨?_, ?_, ?_, hframe, ?_, ?_⟩
  · rw [hframe]
    exact ⟨rfl, rfl, rfl, rfl, rfl, rfl, rfl⟩
  · rw [hframe]
    exact ⟨rfl, rfl, rfl, rfl, rfl, rfl⟩
  · rw [hframe]
    exact ⟨rfl, rfl, rfl, rfl⟩
  · by_cases h : v.rows = self.stiffAssembler.numDofs <;>
      simp [gsNsTimeIntegrator.setSolutionVector, h]
  · intro h
    by_cases hv : v.rows = self.stiffAssembler.numDofs <;>
      simp [gsNsTimeIntegrator.setSolutionVector, h, hv]

/-- C13 on concrete objects: a failed call on an integrator of 3 degrees of freedom leaves
the whole object, and a successful one changes `solVector` and nothing else. -/
theorem setSolutionVector_changes_solVector_only_witness :
    ((sampleIntegrator 3 3 (zeroVector 3) (columnVector [1, 2, 3])).setSolutionVector
        (zeroVector 5)).state = sampleIntegrator 3 3 (zeroVector 3) (columnVector [1, 2, 3]) ∧
    ((sampleIntegrator 3 3 (zeroVector 3) (columnVector [1, 2, 3])).setSolutionVector
        (columnVector [7, 8, 9])).state =
      sampleIntegrator 3 3 (columnVector [7, 8, 9]) (columnVector [1, 2, 3]) ∧
    ((sampleIntegrator 3 5 (zeroVector 3) (zeroVector 3)).setSolutionVector
        (columnVector [7, 8, 9])).result =
      ((sampleIntegrator 3 3 (zeroVector 3) (columnVector [1, 2, 3])).setSolutionVector
        (columnVector [7, 8, 9])).result :=
  ⟨rfl, rfl,
    (setSolutionVector_changes_solVector_only
      (sampleIntegrator 3 3 (zeroVector 3) (columnVector [1, 2, 3]))
      (sampleIntegrator 3 5 (zeroVector 3) (zeroVector 3)) (columnVector [7, 8, 9])).2.2.2.2.2 rfl⟩

end setSolutionVectorFrame

end gismo
